import Mathlib

/-!
Shallow embedding of the vote-aggregation core of the anti-fake-news
moderation platform (Node.js/Express backend with a Mongo document store).

Embedded components and their source locations:

* Vote model statics (backend/models/Vote.js): getNewsVoteStats,
  hasUserVoted, the (userId, newsId) unique index.
* News model methods (backend News model): getTotalVotes,
  getFakeVotePercentage, updateVoteCounts, updateStatusBasedOnVotes.
* NewsService.recalculateNewsStatus (newsService, "Variant A" resolver).
* VoteService.batchMarkVotesInvalid (backend/services/voteService.js).
* Route handlers from backend/routes/voteRoutes.js: POST / (submit vote)
  and GET /news/:newsId/stats.

Modelling conventions: Mongo ObjectIds become natural numbers; the document
store becomes an explicit record of lists threaded through each operation;
JavaScript numeric division on vote counts is modelled with exact rationals;
thrown errors become the error side of Except, paired with the store state
as it is at the moment of the throw.
-/

/-- Enumeration values from NEWS_STATUS in the News model. -/
def NEWS_STATUS_FAKE : String := "Fake"

/-- NEWS_STATUS.NOT_FAKE. -/
def NEWS_STATUS_NOT_FAKE : String := "Not Fake"

/-- NEWS_STATUS.PENDING. -/
def NEWS_STATUS_PENDING : String := "Pending"

/-- Enumeration values from VOTE_RESULTS in the Vote model. -/
def VOTE_RESULTS_FAKE : String := "Fake"

/-- VOTE_RESULTS.NOT_FAKE. -/
def VOTE_RESULTS_NOT_FAKE : String := "Not Fake"

/-- A Vote document (backend/models/Vote.js voteSchema): userId, newsId,
voteResult (a string, schema-constrained to the VOTE_RESULTS values),
isInvalid (default false).  The generated _id is modelled as a natural. -/
structure Vote where
  id : Nat
  userId : Nat
  newsId : Nat
  voteResult : String
  isInvalid : Bool
deriving DecidableEq, Repr

/-- A News document (News model newsSchema), restricted to the fields the
aggregation logic reads and writes: _id, status, and the two cached vote
counters (default 0). -/
structure News where
  id : Nat
  status : String
  fakeVoteCount : Nat
  notFakeVoteCount : Nat
deriving DecidableEq, Repr

/-- The document store: the Vote collection and the News collection. -/
structure DB where
  votes : List Vote
  news : List News
deriving DecidableEq, Repr

/-- News.findById, modelled as first-match lookup by _id. -/
def findNews (db : DB) (newsId : Nat) : Option News :=
  db.news.find? (fun m => m.id == newsId)

/-- Persisting a mutated News document (news.save()): the document replaces
the stored document(s) carrying its _id; the Vote collection is untouched. -/
def saveNews (db : DB) (n : News) : DB :=
  { db with news := db.news.map (fun m => if m.id == n.id then n else m) }

/-- Vote.hasUserVoted (backend/models/Vote.js): findOne({userId, newsId})
coerced to a boolean.  Note the query has no isInvalid filter, so an
invalidated vote still counts as having voted. -/
def hasUserVoted (db : DB) (userId newsId : Nat) : Bool :=
  (db.votes.find? (fun v => v.userId == userId && v.newsId == newsId)).isSome

/-- Aggregated vote counts as returned by Vote.getNewsVoteStats. -/
structure VoteStats where
  fakeCount : Nat
  notFakeCount : Nat
  totalCount : Nat
deriving DecidableEq, Repr

/-- Vote.getNewsVoteStats (backend/models/Vote.js lines 57-79): fetch the
votes with this newsId and isInvalid = false, then walk them with two
counters, incrementing fakeCount on voteResult === VOTE_RESULTS.FAKE and
notFakeCount on voteResult === VOTE_RESULTS.NOT_FAKE; totalCount is their
sum. -/
def getNewsVoteStats (db : DB) (newsId : Nat) : VoteStats :=
  let votes := db.votes.filter (fun v => v.newsId == newsId && v.isInvalid == false)
  let counts := votes.foldl
    (fun (acc : Nat × Nat) v =>
      if v.voteResult == VOTE_RESULTS_FAKE then (acc.1 + 1, acc.2)
      else if v.voteResult == VOTE_RESULTS_NOT_FAKE then (acc.1, acc.2 + 1)
      else acc)
    (0, 0)
  { fakeCount := counts.1, notFakeCount := counts.2, totalCount := counts.1 + counts.2 }

/-- The status computation inlined in NewsService.recalculateNewsStatus
(newsService lines 275-289, "Variant A"): newStatus starts as PENDING; when
totalVotes >= 5 the fake-vote ratio fakeCount / totalVotes is compared
against the fixed thresholds, >= 0.6 giving FAKE and <= 0.4 giving
NOT_FAKE; otherwise the status stays PENDING. -/
def recalcStatusA (fakeCount notFakeCount : Nat) : String :=
  let totalVotes := fakeCount + notFakeCount
  if totalVotes >= 5 then
    let fakeShare : ℚ := (fakeCount : ℚ) / (totalVotes : ℚ)
    if fakeShare >= 0.6 then NEWS_STATUS_FAKE
    else if fakeShare <= 0.4 then NEWS_STATUS_NOT_FAKE
    else NEWS_STATUS_PENDING
  else NEWS_STATUS_PENDING

/-- News model method getTotalVotes: the sum of the two cached counters. -/
def getTotalVotes (n : News) : Nat :=
  n.fakeVoteCount + n.notFakeVoteCount

/-- News model method getFakeVotePercentage: fakeVoteCount / totalVotes * 100
when totalVotes > 0, and 0 otherwise (the guard keeps the division
unreachable at zero total). -/
def getFakeVotePercentage (n : News) : ℚ :=
  let totalVotes := getTotalVotes n
  if totalVotes > 0 then ((n.fakeVoteCount : ℚ) / (totalVotes : ℚ)) * 100 else 0

/-- News model method updateVoteCounts: overwrite both cached counters. -/
def updateVoteCounts (n : News) (fakeCount notFakeCount : Nat) : News :=
  { n with fakeVoteCount := fakeCount, notFakeVoteCount := notFakeCount }

/-- News model method updateStatusBasedOnVotes (JS default arguments
minVotes = 10, fakeThreshold = 0.6; "Variant B"): when totalVotes >=
minVotes, the status becomes FAKE if fakePercentage >= fakeThreshold * 100
and NOT_FAKE otherwise; below minVotes it becomes PENDING.  The JS method
mutates this.status and returns it; the embedding returns the updated
document. -/
def updateStatusBasedOnVotes (n : News) (minVotes : Nat) (fakeThreshold : ℚ) : News :=
  let totalVotes := getTotalVotes n
  if totalVotes >= minVotes then
    if getFakeVotePercentage n >= fakeThreshold * 100 then { n with status := NEWS_STATUS_FAKE }
    else { n with status := NEWS_STATUS_NOT_FAKE }
  else { n with status := NEWS_STATUS_PENDING }

/-- The value returned by NewsService.recalculateNewsStatus: the news id,
the newly resolved status, and the vote statistics used to resolve it. -/
structure RecalcResult where
  newsId : Nat
  status : String
  voteStats : VoteStats
deriving DecidableEq, Repr

/-- NewsService.recalculateNewsStatus (newsService lines 263-303): look the
news up (throwing when absent - the wrapped error message is modelled
verbatim), aggregate the valid votes, resolve the Variant A status, write
it to the document and save.  The cached vote counters are not touched by
this function. -/
def recalculateNewsStatus (db : DB) (newsId : Nat) : Except String RecalcResult × DB :=
  match findNews db newsId with
  | none => (.error "Failed to recalculate news status: News not found", db)
  | some news =>
    let voteStats := getNewsVoteStats db newsId
    let newStatus := recalcStatusA voteStats.fakeCount voteStats.notFakeCount
    let news' := { news with status := newStatus }
    (.ok { newsId := newsId, status := newStatus, voteStats := voteStats }, saveNews db news')

/-- Sequential execution of recalculateNewsStatus over a list of news ids,
collecting the per-id outcome and threading the store.  This models the
Promise.all in VoteService.batchMarkVotesInvalid: every recalculation runs
(each writes only its own news document, and the documents are distinct),
and the combined outcome is inspected afterwards. -/
def runRecalcs (db : DB) (newsIds : List Nat) : List (Except String RecalcResult) × DB :=
  match newsIds with
  | [] => ([], db)
  | nid :: rest =>
    let step := recalculateNewsStatus db nid
    let next := runRecalcs step.2 rest
    (step.1 :: next.1, next.2)

/-- Walk of a list against a set of already-seen elements: an element is
kept on its first occurrence and skipped when already seen.  This is the
insertion behaviour of a JavaScript Set. -/
def setDedupAux (seen : List Nat) : List Nat → List Nat
  | [] => []
  | a :: rest =>
    if seen.contains a then setDedupAux seen rest
    else a :: setDedupAux (a :: seen) rest

/-- First-occurrence deduplication, the semantics of the JavaScript
[...new Set(xs)] used to collect the distinct news ids of a batch. -/
def setDedup (l : List Nat) : List Nat :=
  setDedupAux [] l

/-- The value returned by VoteService.batchMarkVotesInvalid on success. -/
structure BatchOk where
  updatedCount : Nat
  statusUpdates : List RecalcResult
deriving DecidableEq, Repr

/-- VoteService.batchMarkVotesInvalid (voteService lines 229-261): find the
votes whose _id is in voteIds (throwing when none match), collect the
distinct news ids they touch, apply the isInvalid flag to every matched
vote with one updateMany, then recalculate each collected news id through
NewsService.recalculateNewsStatus under Promise.all.  A rejection of any
recalculation rejects the combined promise, so the function rethrows and no
per-item result list is returned; on success the statusUpdates list holds
one recalculation result per distinct news id. -/
def batchMarkVotesInvalid (db : DB) (voteIds : List Nat) (isInvalid : Bool) :
    Except String BatchOk × DB :=
  let votes := db.votes.filter (fun v => voteIds.contains v.id)
  if votes.length = 0 then
    (.error "Failed to batch update vote status: No votes found to update", db)
  else
    let newsIds := setDedup (votes.map (fun v => v.newsId))
    let flagged := db.votes.map
      (fun v => if voteIds.contains v.id then { v with isInvalid := isInvalid } else v)
    let db1 : DB := { db with votes := flagged }
    let outcome := runRecalcs db1 newsIds
    match outcome.1.findSome? (fun r => match r with | .error e => some e | .ok _ => none) with
    | some e => (.error ("Failed to batch update vote status: " ++ e), outcome.2)
    | none =>
      (.ok { updatedCount := votes.length,
             statusUpdates := outcome.1.filterMap (fun r => r.toOption) }, outcome.2)

/-- The error responses of the POST / vote route (voteRoutes lines 13-71):
a 400 validation failure, the 404 missing-news response, and the 400
already-voted response (the DuplicateVote failure). -/
inductive SubmitVoteErr where
  | validationFailed
  | newsNotFound
  | alreadyVoted
deriving DecidableEq, Repr

/-- The 201 payload of the POST / vote route: the created vote, the counts
written to the news document, and the resolved status. -/
structure SubmitVoteOk where
  vote : Vote
  fakeCount : Nat
  notFakeCount : Nat
  totalCount : Nat
  newsStatus : String
deriving DecidableEq, Repr

/-- The POST / vote route handler (voteRoutes lines 13-71, the program's
SubmitVote operation): validate voteResult against the VOTE_RESULTS enum,
require the news to exist, reject when Vote.hasUserVoted already holds
(regardless of the isInvalid flag on the existing vote), save the new vote, then
recompute Vote.getNewsVoteStats, write the fresh counts with
news.updateVoteCounts, resolve the status with news.updateStatusBasedOnVotes
at its default arguments, and save the news document.  The generated _id of
the new vote is passed in as voteId. -/
def submitVoteRoute (db : DB) (userId newsId : Nat) (voteResult : String) (voteId : Nat) :
    Except SubmitVoteErr SubmitVoteOk × DB :=
  if ¬ (voteResult = VOTE_RESULTS_FAKE ∨ voteResult = VOTE_RESULTS_NOT_FAKE) then
    (.error .validationFailed, db)
  else
    match findNews db newsId with
    | none => (.error .newsNotFound, db)
    | some news =>
      if hasUserVoted db userId newsId then (.error .alreadyVoted, db)
      else
        let newVote : Vote :=
          { id := voteId, userId := userId, newsId := newsId,
            voteResult := voteResult, isInvalid := false }
        let db1 : DB := { db with votes := db.votes ++ [newVote] }
        let voteStats := getNewsVoteStats db1 newsId
        let news1 := updateVoteCounts news voteStats.fakeCount voteStats.notFakeCount
        let news2 := updateStatusBasedOnVotes news1 10 0.6
        (.ok { vote := newVote,
               fakeCount := news2.fakeVoteCount,
               notFakeCount := news2.notFakeVoteCount,
               totalCount := getTotalVotes news2,
               newsStatus := news2.status }, saveNews db1 news2)

/-- Exact decimal rendering of JavaScript Number.prototype.toFixed(1) for
the nonnegative percentage values produced by the stats route: round to the
nearest tenth and print one decimal digit. -/
def toFixed1 (q : ℚ) : String :=
  let n : ℤ := round (q * 10)
  toString (n / 10) ++ "." ++ toString (n % 10)

/-- The 200 payload of the GET /news/:newsId/stats route. -/
structure StatsResponse where
  newsId : Nat
  fakeCount : Nat
  notFakeCount : Nat
  totalCount : Nat
  fakePercentage : String
  notFakePercentage : String
  newsStatus : String
deriving DecidableEq, Repr

/-- The GET /news/:newsId/stats route handler (voteRoutes lines 100-129):
404 when the news is missing; otherwise the aggregated counts together with
percentage strings, each computed by a guarded ternary that divides only
when totalCount > 0 and yields the literal string 0% otherwise. -/
def getNewsStatsRoute (db : DB) (newsId : Nat) : Except String StatsResponse :=
  match findNews db newsId with
  | none => .error "News not found"
  | some news =>
    let voteStats := getNewsVoteStats db newsId
    .ok { newsId := newsId,
          fakeCount := voteStats.fakeCount,
          notFakeCount := voteStats.notFakeCount,
          totalCount := voteStats.totalCount,
          fakePercentage :=
            if voteStats.totalCount > 0 then
              toFixed1 (((voteStats.fakeCount : ℚ) / (voteStats.totalCount : ℚ)) * 100) ++ "%"
            else "0%",
          notFakePercentage :=
            if voteStats.totalCount > 0 then
              toFixed1 (((voteStats.notFakeCount : ℚ) / (voteStats.totalCount : ℚ)) * 100) ++ "%"
            else "0%",
          newsStatus := news.status }

/-- Rational-to-integer reading of the upper threshold test: for a positive
total b, a / b is at least 0.6 exactly when 3 * b <= 5 * a. -/
theorem ratio_ge_sixtieth (a b : Nat) (hb : 0 < b) :
    ((0.6 : ℚ) ≤ (a : ℚ) / (b : ℚ)) ↔ 3 * b ≤ 5 * a := by
  have hb' : (0 : ℚ) < (b : ℚ) := by exact_mod_cast hb
  rw [le_div_iff₀ hb']
  constructor
  · intro h
    have h5 : (3 : ℚ) * b ≤ 5 * a := by nlinarith
    exact_mod_cast h5
  · intro h
    have h5 : (3 : ℚ) * b ≤ 5 * a := by exact_mod_cast h
    nlinarith

/-- Rational-to-integer reading of the lower threshold test: for a positive
total b, a / b is at most 0.4 exactly when 5 * a <= 2 * b. -/
theorem ratio_le_fortieth (a b : Nat) (hb : 0 < b) :
    ((a : ℚ) / (b : ℚ) ≤ (0.4 : ℚ)) ↔ 5 * a ≤ 2 * b := by
  have hb' : (0 : ℚ) < (b : ℚ) := by exact_mod_cast hb
  rw [div_le_iff₀ hb']
  constructor
  · intro h
    have h5 : (5 : ℚ) * a ≤ 2 * b := by nlinarith
    exact_mod_cast h5
  · intro h
    have h5 : (5 : ℚ) * a ≤ 2 * b := by exact_mod_cast h
    nlinarith

/-- C1: Variant A status resolution: for every pair of counts
(fakeCount, notFakeCount) with total = fakeCount + notFakeCount, the
NewsService recalculation assigns status Pending when total < 5; otherwise,
with fakeRatio = fakeCount / total, it assigns Fake when fakeRatio >= 0.6,
NotFake when fakeRatio <= 0.4, and Pending when fakeRatio is strictly
between 0.4 and 0.6 - the boundary comparisons being exactly >= and <=
(inclusive). -/
theorem variantA_resolution (fc nc : Nat) :
    (fc + nc < 5 → recalcStatusA fc nc = NEWS_STATUS_PENDING)
    ∧ (5 ≤ fc + nc →
        (((0.6 : ℚ) ≤ (fc : ℚ) / ((fc + nc : Nat) : ℚ) →
            recalcStatusA fc nc = NEWS_STATUS_FAKE)
         ∧ ((fc : ℚ) / ((fc + nc : Nat) : ℚ) ≤ (0.4 : ℚ) →
            recalcStatusA fc nc = NEWS_STATUS_NOT_FAKE)
         ∧ ((0.4 : ℚ) < (fc : ℚ) / ((fc + nc : Nat) : ℚ) →
            (fc : ℚ) / ((fc + nc : Nat) : ℚ) < (0.6 : ℚ) →
            recalcStatusA fc nc = NEWS_STATUS_PENDING))) := by
  constructor
  · intro hlt
    have : ¬ (fc + nc ≥ 5) := by omega
    simp only [recalcStatusA, this, if_false]
  · intro hge
    refine ⟨?_, ?_, ?_⟩
    · intro hr
      simp only [recalcStatusA, ge_iff_le, hge, if_true, hr]
    · intro hr
      have hnot : ¬ ((0.6 : ℚ) ≤ (fc : ℚ) / ((fc + nc : Nat) : ℚ)) := by
        intro habs
        have := le_trans habs hr
        norm_num at this
      simp only [recalcStatusA, ge_iff_le, hge, if_true, hnot, if_false, hr]
    · intro hlo hhi
      have hnot1 : ¬ ((0.6 : ℚ) ≤ (fc : ℚ) / ((fc + nc : Nat) : ℚ)) := not_le.mpr hhi
      have hnot2 : ¬ ((fc : ℚ) / ((fc + nc : Nat) : ℚ) ≤ (0.4 : ℚ)) := not_le.mpr hlo
      simp only [recalcStatusA, ge_iff_le, hge, if_true, hnot1, if_false, hnot2]

/-- Witness for C1: at 3 Fake and 2 NotFake votes the total reaches 5, the
ratio is exactly 0.6, and the inclusive upper comparison yields Fake. -/
theorem variantA_resolution_witness :
    5 ≤ 3 + 2 ∧ (0.6 : ℚ) ≤ (3 : ℚ) / ((3 + 2 : Nat) : ℚ)
    ∧ recalcStatusA 3 2 = NEWS_STATUS_FAKE := by
  refine ⟨by norm_num, by norm_num, ?_⟩
  exact ((variantA_resolution 3 2).2 (by norm_num)).1 (by norm_num)

/-- The Variant A resolver with its two rational threshold tests replaced by
the equivalent integer comparisons; used to settle branch analyses by
linear arithmetic. -/
theorem recalcStatusA_cases (fc nc : Nat) :
    recalcStatusA fc nc =
      if 5 ≤ fc + nc then
        (if 3 * (fc + nc) ≤ 5 * fc then NEWS_STATUS_FAKE
         else if 5 * fc ≤ 2 * (fc + nc) then NEWS_STATUS_NOT_FAKE
         else NEWS_STATUS_PENDING)
      else NEWS_STATUS_PENDING := by
  by_cases h1 : 5 ≤ fc + nc
  · have hb : 0 < fc + nc := by omega
    simp only [recalcStatusA, ge_iff_le, h1, if_true,
      ratio_ge_sixtieth fc (fc + nc) hb, ratio_le_fortieth fc (fc + nc) hb]
  · have h1' : ¬ (fc + nc ≥ 5) := h1
    simp only [recalcStatusA, h1', if_false, h1]

/-- C2: Variant B status resolution: for every pair of cached counts on a
NewsItem, updateStatusBasedOnVotes at its default arguments minVotes = 10,
fakeThreshold = 0.6 assigns Pending when totalVotes < minVotes; otherwise
it assigns Fake when the fake-vote percentage fakeVoteCount/totalVotes*100
is >= fakeThreshold * 100 and NotFake in every other case - no dead zone
and no sticky Pending once the minimum vote count is reached. -/
theorem variantB_resolution (n : News) :
    (getTotalVotes n < 10 →
        (updateStatusBasedOnVotes n 10 0.6).status = NEWS_STATUS_PENDING)
    ∧ (10 ≤ getTotalVotes n →
        (((0.6 : ℚ) * 100 ≤ ((n.fakeVoteCount : ℚ) / (getTotalVotes n : ℚ)) * 100 →
            (updateStatusBasedOnVotes n 10 0.6).status = NEWS_STATUS_FAKE)
         ∧ (((n.fakeVoteCount : ℚ) / (getTotalVotes n : ℚ)) * 100 < (0.6 : ℚ) * 100 →
            (updateStatusBasedOnVotes n 10 0.6).status = NEWS_STATUS_NOT_FAKE)
         ∧ ((updateStatusBasedOnVotes n 10 0.6).status = NEWS_STATUS_FAKE
            ∨ (updateStatusBasedOnVotes n 10 0.6).status = NEWS_STATUS_NOT_FAKE))) := by
  constructor
  · intro hlt
    have hne : ¬ (getTotalVotes n ≥ 10) := by omega
    simp only [updateStatusBasedOnVotes, hne, if_false]
  · intro h10
    have hpos : 0 < getTotalVotes n := by omega
    have hperc : getFakeVotePercentage n
        = ((n.fakeVoteCount : ℚ) / (getTotalVotes n : ℚ)) * 100 := by
      simp only [getFakeVotePercentage, gt_iff_lt, hpos, if_true]
    refine ⟨?_, ?_, ?_⟩
    · intro hge
      simp only [updateStatusBasedOnVotes, ge_iff_le, h10, if_true, hperc, hge]
    · intro hltp
      have hne : ¬ ((0.6 : ℚ) * 100 ≤ getFakeVotePercentage n) := by
        rw [hperc]; exact not_le.mpr hltp
      simp only [updateStatusBasedOnVotes, ge_iff_le, h10, if_true, hne, if_false]
    · by_cases hge : (0.6 : ℚ) * 100 ≤ getFakeVotePercentage n
      · left
        simp only [updateStatusBasedOnVotes, ge_iff_le, h10, if_true, hge]
      · right
        simp only [updateStatusBasedOnVotes, ge_iff_le, h10, if_true, hge, if_false]

/-- Witness for C2: with cached counts 6 Fake / 4 NotFake the total is 10
and the percentage is exactly 60, so the inclusive comparison yields Fake. -/
theorem variantB_resolution_witness :
    10 ≤ getTotalVotes { id := 1, status := "Pending", fakeVoteCount := 6, notFakeVoteCount := 4 }
    ∧ (updateStatusBasedOnVotes
        { id := 1, status := "Pending", fakeVoteCount := 6, notFakeVoteCount := 4 }
        10 0.6).status = NEWS_STATUS_FAKE := by
  refine ⟨by norm_num [getTotalVotes], ?_⟩
  exact ((variantB_resolution
    { id := 1, status := "Pending", fakeVoteCount := 6, notFakeVoteCount := 4 }).2
      (by norm_num [getTotalVotes])).1 (by norm_num [getTotalVotes])

/-- C8: monotonic threshold (Variant A): for every fixed notFakeCount, if
resolution of (fakeCount, notFakeCount) yields Fake, then resolution of
(fakeCount', notFakeCount) for any fakeCount' > fakeCount never yields
NotFake - adding Fake votes alone cannot move the status from Fake to
NotFake. -/
theorem variantA_monotonic (nc fc fc' : Nat)
    (hfake : recalcStatusA fc nc = NEWS_STATUS_FAKE) (hlt : fc < fc') :
    recalcStatusA fc' nc ≠ NEWS_STATUS_NOT_FAKE := by
  intro habs
  rw [recalcStatusA_cases] at hfake habs
  by_cases h1 : 5 ≤ fc + nc
  · rw [if_pos h1] at hfake
    by_cases h2 : 3 * (fc + nc) ≤ 5 * fc
    · have h1' : 5 ≤ fc' + nc := by omega
      rw [if_pos h1'] at habs
      by_cases h2' : 3 * (fc' + nc) ≤ 5 * fc'
      · rw [if_pos h2'] at habs
        exact absurd habs (by decide)
      · rw [if_neg h2'] at habs
        by_cases h3' : 5 * fc' ≤ 2 * (fc' + nc)
        · omega
        · rw [if_neg h3'] at habs
          exact absurd habs (by decide)
    · rw [if_neg h2] at hfake
      by_cases h3 : 5 * fc ≤ 2 * (fc + nc)
      · rw [if_pos h3] at hfake
        exact absurd hfake (by decide)
      · rw [if_neg h3] at hfake
        exact absurd hfake (by decide)
  · rw [if_neg h1] at hfake
    exact absurd hfake (by decide)

/-- Witness for C8: 4 Fake / 1 NotFake resolves Fake, and raising the Fake
count to 5 with notFakeCount fixed does not resolve NotFake. -/
theorem variantA_monotonic_witness :
    recalcStatusA 4 1 = NEWS_STATUS_FAKE
    ∧ recalcStatusA 5 1 ≠ NEWS_STATUS_NOT_FAKE := by
  have h4 : recalcStatusA 4 1 = NEWS_STATUS_FAKE := by
    rw [recalcStatusA_cases]; norm_num
  exact ⟨h4, variantA_monotonic 1 4 5 h4 (by norm_num)⟩

/-- The counter walk of getNewsVoteStats, characterised: starting from
(a, b), the two accumulated counters gain exactly the number of Fake and
of NotFake vote results in the list. -/
theorem voteCount_foldl (l : List Vote) (a b : Nat) :
    l.foldl
      (fun (acc : Nat × Nat) v =>
        if v.voteResult == VOTE_RESULTS_FAKE then (acc.1 + 1, acc.2)
        else if v.voteResult == VOTE_RESULTS_NOT_FAKE then (acc.1, acc.2 + 1)
        else acc)
      (a, b)
    = (a + l.countP (fun v => v.voteResult == VOTE_RESULTS_FAKE),
       b + l.countP (fun v => v.voteResult == VOTE_RESULTS_NOT_FAKE)) := by
  induction l generalizing a b with
  | nil => simp
  | cons v l ih =>
    simp only [List.foldl_cons]
    by_cases hF : v.voteResult = VOTE_RESULTS_FAKE
    · have hFb : (v.voteResult == VOTE_RESULTS_FAKE) = true := by rw [hF]; decide
      have hNFb : (v.voteResult == VOTE_RESULTS_NOT_FAKE) = false := by rw [hF]; decide
      rw [if_pos hFb, ih]
      simp [List.countP_cons, hFb, hNFb, Prod.mk.injEq]
      omega
    · have hFb : (v.voteResult == VOTE_RESULTS_FAKE) = false := by
        simpa using hF
      by_cases hNF : v.voteResult = VOTE_RESULTS_NOT_FAKE
      · have hNFb : (v.voteResult == VOTE_RESULTS_NOT_FAKE) = true := by rw [hNF]; decide
        rw [if_neg (by simp [hFb]), if_pos hNFb, ih]
        simp [List.countP_cons, hFb, hNFb, Prod.mk.injEq]
        omega
      · have hNFb : (v.voteResult == VOTE_RESULTS_NOT_FAKE) = false := by
          simpa using hNF
        rw [if_neg (by simp [hFb]), if_neg (by simp [hNFb]), ih]
        simp [List.countP_cons, hFb, hNFb, Prod.mk.injEq]

/-- getNewsVoteStats as three countP counts over the raw Vote collection:
each counter counts the votes whose result matches and whose newsId matches
and whose isInvalid flag is false. -/
theorem getNewsVoteStats_characterization (db : DB) (nid : Nat) :
    getNewsVoteStats db nid =
      { fakeCount := db.votes.countP (fun v =>
            v.voteResult == VOTE_RESULTS_FAKE && (v.newsId == nid && v.isInvalid == false)),
        notFakeCount := db.votes.countP (fun v =>
            v.voteResult == VOTE_RESULTS_NOT_FAKE && (v.newsId == nid && v.isInvalid == false)),
        totalCount :=
          db.votes.countP (fun v =>
            v.voteResult == VOTE_RESULTS_FAKE && (v.newsId == nid && v.isInvalid == false))
          + db.votes.countP (fun v =>
            v.voteResult == VOTE_RESULTS_NOT_FAKE && (v.newsId == nid && v.isInvalid == false)) } := by
  simp only [getNewsVoteStats]
  rw [voteCount_foldl, List.countP_filter, List.countP_filter]
  simp

/-- C4: aggregation over valid votes only: for every newsId and stored vote
collection, getNewsVoteStats counts only votes with isInvalid = false - a
vote with isInvalid = true is never counted, for any insertion order - and
returns fakeCount = number of valid Fake votes, notFakeCount = number of
valid NotFake votes, and totalCount = fakeCount + notFakeCount. -/
theorem stats_exclude_invalid (db : DB) (nid : Nat) :
    ((getNewsVoteStats db nid).fakeCount = db.votes.countP (fun v =>
        v.voteResult == VOTE_RESULTS_FAKE && (v.newsId == nid && v.isInvalid == false)))
    ∧ ((getNewsVoteStats db nid).notFakeCount = db.votes.countP (fun v =>
        v.voteResult == VOTE_RESULTS_NOT_FAKE && (v.newsId == nid && v.isInvalid == false)))
    ∧ ((getNewsVoteStats db nid).totalCount
        = (getNewsVoteStats db nid).fakeCount + (getNewsVoteStats db nid).notFakeCount)
    ∧ (∀ w : Vote, w.isInvalid = true →
        getNewsVoteStats { db with votes := w :: db.votes } nid = getNewsVoteStats db nid)
    ∧ (∀ l' : List Vote, l'.Perm db.votes →
        getNewsVoteStats { db with votes := l' } nid = getNewsVoteStats db nid) := by
  refine ⟨?_, ?_, ?_, ?_, ?_⟩
  · rw [getNewsVoteStats_characterization]
  · rw [getNewsVoteStats_characterization]
  · rw [getNewsVoteStats_characterization]
  · intro w hw
    rw [getNewsVoteStats_characterization, getNewsVoteStats_characterization]
    simp [List.countP_cons, hw]
  · intro l' hperm
    rw [getNewsVoteStats_characterization, getNewsVoteStats_characterization]
    simp only [hperm.countP_eq]

/-- Witness for C4: prepending an invalidated Fake vote leaves the counts
of a one-valid-vote store unchanged, permuting a two-vote store leaves its
counts unchanged, and the valid counts evaluate as expected. -/
theorem stats_exclude_invalid_witness :
    (getNewsVoteStats
        { votes := Vote.mk 9 1 1 "Fake" true :: [Vote.mk 2 2 1 "Fake" false],
          news := [] } 1
      = getNewsVoteStats { votes := [Vote.mk 2 2 1 "Fake" false], news := [] } 1)
    ∧ (getNewsVoteStats
        { votes := [Vote.mk 2 2 1 "Fake" false, Vote.mk 3 3 1 "Not Fake" false],
          news := [] } 1
      = getNewsVoteStats
        { votes := [Vote.mk 3 3 1 "Not Fake" false, Vote.mk 2 2 1 "Fake" false],
          news := [] } 1)
    ∧ getNewsVoteStats { votes := [Vote.mk 2 2 1 "Fake" false], news := [] } 1
      = VoteStats.mk 1 0 1 := by
  refine ⟨?_, ?_, by decide⟩
  · exact (stats_exclude_invalid
      { votes := [Vote.mk 2 2 1 "Fake" false], news := [] } 1).2.2.2.1
      (Vote.mk 9 1 1 "Fake" true) rfl
  · exact (stats_exclude_invalid
      { votes := [Vote.mk 3 3 1 "Not Fake" false, Vote.mk 2 2 1 "Fake" false],
        news := [] } 1).2.2.2.2
      [Vote.mk 2 2 1 "Fake" false, Vote.mk 3 3 1 "Not Fake" false]
      (List.Perm.swap (Vote.mk 3 3 1 "Not Fake" false) (Vote.mk 2 2 1 "Fake" false) [])

/-- Replacing the news document carrying a given _id and looking that _id up
again finds the replacement, whenever the lookup found some document
before. -/
theorem find?_id_map_set (l : List News) (nid : Nat) (n' : News) (hid : n'.id = nid)
    (m : News) (h : l.find? (fun x => x.id == nid) = some m) :
    (l.map (fun x => if x.id == n'.id then n' else x)).find? (fun x => x.id == nid)
      = some n' := by
  induction l with
  | nil => simp at h
  | cons a l ih =>
    simp only [List.map_cons]
    by_cases ha : (a.id == n'.id) = true
    · rw [if_pos ha]
      apply List.find?_cons_of_pos
      simp [hid]
    · rw [if_neg ha]
      have ha' : ¬ ((a.id == nid) = true) := by
        simp only [beq_iff_eq] at ha ⊢
        rw [← hid]; exact ha
      rw [List.find?_cons_of_neg (p := fun (x : News) => x.id == nid) _ ha'] at h
      rw [List.find?_cons_of_neg (p := fun (x : News) => x.id == nid) _ ha']
      exact ih h

/-- Saving the same news document twice equals saving it once. -/
theorem saveNews_idem (db : DB) (n' : News) :
    saveNews (saveNews db n') n' = saveNews db n' := by
  simp only [saveNews, List.map_map]
  congr 1
  apply List.map_congr_left
  intro a _
  by_cases ha : (a.id == n'.id) = true
  · simp [Function.comp, ha]
  · simp [Function.comp, ha]

/-- C9: idempotence of recalculation: when RecalculateNews succeeds, running
it again on the resulting store with no intervening change to the stored
votes succeeds with identical vote statistics and an identical status - and
even leaves the store exactly as it was after the first run. -/
theorem recalculate_idempotent (db : DB) (nid : Nat) (r1 : RecalcResult) (db1 : DB)
    (h : recalculateNewsStatus db nid = (.ok r1, db1)) :
    recalculateNewsStatus db1 nid = (.ok r1, db1) := by
  unfold recalculateNewsStatus at h
  cases hfind : findNews db nid with
  | none =>
    rw [hfind] at h
    simp at h
  | some news =>
    rw [hfind] at h
    simp only [Prod.mk.injEq, Except.ok.injEq] at h
    obtain ⟨hr, hdb⟩ := h
    have hid : news.id = nid := by
      have hp := List.find?_some hfind
      simpa using hp
    subst hdb
    subst hr
    set st := recalcStatusA (getNewsVoteStats db nid).fakeCount
      (getNewsVoteStats db nid).notFakeCount with hst
    have hfind1 : findNews (saveNews db { news with status := st }) nid
        = some { news with status := st } := by
      unfold findNews at hfind ⊢
      exact find?_id_map_set db.news nid _ hid news hfind
    simp only [recalculateNewsStatus, hfind1]
    have hstats : getNewsVoteStats (saveNews db { news with status := st }) nid
        = getNewsVoteStats db nid := rfl
    have hBA : ({ { news with status := st } with status := st } : News)
        = { news with status := st } := rfl
    rw [hstats, ← hst, hBA, saveNews_idem]

/-- Witness for C9: recalculating a pending zero-vote news item returns its
Pending status and zero statistics, and the store it produces is a fixed
point of the recalculation. -/
theorem recalculate_idempotent_witness :
    recalculateNewsStatus { votes := [], news := [News.mk 1 "Pending" 0 0] } 1
      = (.ok (RecalcResult.mk 1 "Pending" (VoteStats.mk 0 0 0)),
         { votes := [], news := [News.mk 1 "Pending" 0 0] }) :=
  recalculate_idempotent { votes := [], news := [News.mk 1 "Pending" 0 0] } 1
    (RecalcResult.mk 1 "Pending" (VoteStats.mk 0 0 0))
    { votes := [], news := [News.mk 1 "Pending" 0 0] }
    (by rfl)

/-- C3: uniqueness: whenever the store already holds a vote by this user for
this news - whatever its isInvalid flag - a further SubmitVote through the
vote route always fails with the DuplicateVote (already-voted) response,
and the store, including the data of the first vote, is left unchanged.  The
reachable-state guards of the route (a legal voteResult and an existing
news item) are assumed so that the duplicate check is the deciding one; the
(userId, newsId) unique index of the Vote schema backs the same invariant
at the store level. -/
theorem submitVote_duplicate (db : DB) (u n : Nat) (r : String) (vid : Nat) (v0 : Vote)
    (hvalid : r = VOTE_RESULTS_FAKE ∨ r = VOTE_RESULTS_NOT_FAKE)
    (hnews : (findNews db n).isSome = true)
    (hv0 : v0 ∈ db.votes) (hu : v0.userId = u) (hn : v0.newsId = n) :
    submitVoteRoute db u n r vid = (.error .alreadyVoted, db) := by
  have hvoted : hasUserVoted db u n = true := by
    unfold hasUserVoted
    rw [Option.isSome_iff_exists]
    have hfound : (db.votes.find? (fun v => v.userId == u && v.newsId == n)).isSome := by
      rw [List.find?_isSome]
      exact ⟨v0, hv0, by simp [hu, hn]⟩
    exact Option.isSome_iff_exists.mp hfound
  unfold submitVoteRoute
  rw [if_neg (not_not_intro hvalid)]
  split
  · rename_i heq
    rw [heq] at hnews
    simp at hnews
  · rw [if_pos hvoted]

/-- Witness for C3: user 7 already holds an invalidated Fake vote on news 1;
a second vote by user 7 on news 1 is rejected as already-voted and the
store is unchanged. -/
theorem submitVote_duplicate_witness :
    submitVoteRoute
      { votes := [Vote.mk 1 7 1 "Fake" true], news := [News.mk 1 "Pending" 0 0] }
      7 1 "Not Fake" 2
      = (.error .alreadyVoted,
         { votes := [Vote.mk 1 7 1 "Fake" true], news := [News.mk 1 "Pending" 0 0] }) :=
  submitVote_duplicate
    { votes := [Vote.mk 1 7 1 "Fake" true], news := [News.mk 1 "Pending" 0 0] }
    7 1 "Not Fake" 2 (Vote.mk 1 7 1 "Fake" true)
    (Or.inr rfl) (by decide) (by decide) rfl rfl

/-- updateStatusBasedOnVotes writes only the status field: the _id and the
two cached counters pass through unchanged. -/
theorem updateStatus_preserves (n : News) (mv : Nat) (th : ℚ) :
    (updateStatusBasedOnVotes n mv th).id = n.id
    ∧ (updateStatusBasedOnVotes n mv th).fakeVoteCount = n.fakeVoteCount
    ∧ (updateStatusBasedOnVotes n mv th).notFakeVoteCount = n.notFakeVoteCount := by
  simp only [updateStatusBasedOnVotes]
  split_ifs <;> exact ⟨rfl, rfl, rfl⟩

/-- The status written by updateStatusBasedOnVotes, as a closed-form
conditional over the counters of the document. -/
theorem updateStatus_status (n : News) (mv : Nat) (th : ℚ) :
    (updateStatusBasedOnVotes n mv th).status =
      if getTotalVotes n ≥ mv then
        (if getFakeVotePercentage n ≥ th * 100 then NEWS_STATUS_FAKE
         else NEWS_STATUS_NOT_FAKE)
      else NEWS_STATUS_PENDING := by
  simp only [updateStatusBasedOnVotes]
  split_ifs <;> rfl

/-- Saving a news document whose _id is the one a successful lookup found
makes the lookup return the saved document. -/
theorem findNews_saveNews (db : DB) (nid : Nat) (m n' : News)
    (hfind : findNews db nid = some m) (hid : n'.id = nid) :
    findNews (saveNews db n') nid = some n' := by
  unfold findNews at hfind ⊢
  exact find?_id_map_set db.news nid n' hid m hfind

/-- Core of the submit-vote postcondition: writing the freshly aggregated
counts and the Variant B status to the found news document and saving it
leaves a store in which the saved document is found again, its cached
counters equal the aggregation over the saved store, and its status is the
Variant B resolution of its own cached counters. -/
theorem counts_status_core (db0 : DB) (news : News) (nid : Nat)
    (hfind : findNews db0 nid = some news) (hid : news.id = nid) :
    let s := getNewsVoteStats db0 nid
    let news2 := updateStatusBasedOnVotes (updateVoteCounts news s.fakeCount s.notFakeCount) 10 0.6
    findNews (saveNews db0 news2) nid = some news2
    ∧ news2.fakeVoteCount = (getNewsVoteStats (saveNews db0 news2) nid).fakeCount
    ∧ news2.notFakeVoteCount = (getNewsVoteStats (saveNews db0 news2) nid).notFakeCount
    ∧ news2.status = (updateStatusBasedOnVotes news2 10 0.6).status := by
  intro s news2
  have hpres := updateStatus_preserves (updateVoteCounts news s.fakeCount s.notFakeCount) 10 0.6
  have hid2 : news2.id = nid := by
    rw [show news2.id = (updateVoteCounts news s.fakeCount s.notFakeCount).id from hpres.1]
    exact hid
  refine ⟨findNews_saveNews db0 nid news news2 hfind hid2, ?_, ?_, ?_⟩
  · rw [show news2.fakeVoteCount
        = (updateVoteCounts news s.fakeCount s.notFakeCount).fakeVoteCount from hpres.2.1]
    rfl
  · rw [show news2.notFakeVoteCount
        = (updateVoteCounts news s.fakeCount s.notFakeCount).notFakeVoteCount from hpres.2.2]
    rfl
  · rw [updateStatus_status news2 10 0.6]
    have h1 : getTotalVotes news2
        = getTotalVotes (updateVoteCounts news s.fakeCount s.notFakeCount) := by
      unfold getTotalVotes
      rw [hpres.2.1, hpres.2.2]
    have h2 : getFakeVotePercentage news2
        = getFakeVotePercentage (updateVoteCounts news s.fakeCount s.notFakeCount) := by
      unfold getFakeVotePercentage getTotalVotes
      rw [hpres.2.1, hpres.2.2]
    rw [h1, h2, ← updateStatus_status (updateVoteCounts news s.fakeCount s.notFakeCount) 10 0.6]

/-- C5: cached-count consistency: after every successful SubmitVote through
the vote route, the new vote is persisted, and the news document now in the
store carries cached fakeVoteCount / notFakeVoteCount equal to the
aggregation freshly recomputed over the post-submit store (so never stale),
while the persisted status is exactly the Variant B resolution of those
cached counters, and it is the status returned to the caller. -/
theorem submitVote_cache_consistency (db : DB) (u n : Nat) (r : String) (vid : Nat)
    (out : SubmitVoteOk) (db' : DB)
    (h : submitVoteRoute db u n r vid = (.ok out, db')) :
    db'.votes = db.votes ++ [out.vote]
    ∧ ∃ news', findNews db' n = some news'
      ∧ news'.fakeVoteCount = (getNewsVoteStats db' n).fakeCount
      ∧ news'.notFakeVoteCount = (getNewsVoteStats db' n).notFakeCount
      ∧ news'.status = (updateStatusBasedOnVotes news' 10 0.6).status
      ∧ out.newsStatus = news'.status := by
  unfold submitVoteRoute at h
  by_cases hval : ¬ (r = VOTE_RESULTS_FAKE ∨ r = VOTE_RESULTS_NOT_FAKE)
  · rw [if_pos hval] at h
    simp at h
  · rw [if_neg hval] at h
    split at h
    · simp at h
    · rename_i news hfind
      by_cases hvote : hasUserVoted db u n = true
      · rw [if_pos hvote] at h
        simp at h
      · rw [if_neg hvote] at h
        simp only [Prod.mk.injEq, Except.ok.injEq] at h
        obtain ⟨hout, hdb⟩ := h
        have hidnews : news.id = n := by
          have hp := List.find?_some hfind
          simpa using hp
        have hfind1 : findNews
            (DB.mk (db.votes ++ [Vote.mk vid u n r false]) db.news) n = some news := hfind
        have hcore := counts_status_core
          (DB.mk (db.votes ++ [Vote.mk vid u n r false]) db.news) news n hfind1 hidnews
        simp only [] at hcore
        obtain ⟨hf, hc1, hc2, hst⟩ := hcore
        subst hdb
        subst hout
        exact ⟨rfl, _, hf, hc1, hc2, hst, rfl⟩

/-- Witness for C5: submitting the first Fake vote on a fresh news item
persists the vote, writes cached counts (1, 0) matching the recomputed
aggregation, and persists status Pending (1 < 10 votes), which is also
returned. -/
theorem submitVote_cache_consistency_witness :
    (DB.mk [Vote.mk 1 5 1 "Fake" false] [News.mk 1 "Pending" 1 0]).votes
      = (DB.mk [] [News.mk 1 "Pending" 0 0]).votes
        ++ [(SubmitVoteOk.mk (Vote.mk 1 5 1 "Fake" false) 1 0 1 "Pending").vote]
    ∧ ∃ news', findNews (DB.mk [Vote.mk 1 5 1 "Fake" false] [News.mk 1 "Pending" 1 0]) 1
        = some news'
      ∧ news'.fakeVoteCount
          = (getNewsVoteStats (DB.mk [Vote.mk 1 5 1 "Fake" false] [News.mk 1 "Pending" 1 0]) 1).fakeCount
      ∧ news'.notFakeVoteCount
          = (getNewsVoteStats (DB.mk [Vote.mk 1 5 1 "Fake" false] [News.mk 1 "Pending" 1 0]) 1).notFakeCount
      ∧ news'.status = (updateStatusBasedOnVotes news' 10 0.6).status
      ∧ (SubmitVoteOk.mk (Vote.mk 1 5 1 "Fake" false) 1 0 1 "Pending").newsStatus
          = news'.status :=
  submitVote_cache_consistency (DB.mk [] [News.mk 1 "Pending" 0 0]) 5 1 "Fake" 1
    (SubmitVoteOk.mk (Vote.mk 1 5 1 "Fake" false) 1 0 1 "Pending")
    (DB.mk [Vote.mk 1 5 1 "Fake" false] [News.mk 1 "Pending" 1 0])
    (by rfl)

/-- Membership in the deduplication walk: kept exactly when present in the
remaining input and not seen before. -/
theorem mem_setDedupAux (x : Nat) : ∀ (l seen : List Nat),
    x ∈ setDedupAux seen l ↔ x ∈ l ∧ ¬ x ∈ seen := by
  intro l
  induction l with
  | nil =>
    intro seen
    simp [setDedupAux]
  | cons a rest ih =>
    intro seen
    simp only [setDedupAux]
    by_cases hc : seen.contains a = true
    · have ha : a ∈ seen := by simpa using hc
      rw [if_pos hc, ih]
      by_cases hxa : x = a
      · subst hxa
        simp [ha]
      · simp [hxa]
    · have ha : ¬ a ∈ seen := by simpa using hc
      rw [if_neg hc]
      simp only [List.mem_cons, ih, List.mem_cons]
      by_cases hxa : x = a
      · subst hxa
        simp [ha]
      · simp [hxa]

/-- Membership is preserved by first-occurrence deduplication. -/
theorem mem_setDedup (x : Nat) (l : List Nat) : x ∈ setDedup l ↔ x ∈ l := by
  simp [setDedup, mem_setDedupAux]

/-- The deduplication walk yields a duplicate-free list. -/
theorem nodup_setDedupAux : ∀ (l seen : List Nat), (setDedupAux seen l).Nodup := by
  intro l
  induction l with
  | nil =>
    intro seen
    simp [setDedupAux]
  | cons a rest ih =>
    intro seen
    simp only [setDedupAux]
    by_cases hc : seen.contains a = true
    · rw [if_pos hc]
      exact ih seen
    · rw [if_neg hc]
      refine List.Nodup.cons ?_ (ih (a :: seen))
      intro hmem
      rw [mem_setDedupAux] at hmem
      exact hmem.2 (List.mem_cons_self a seen)

/-- First-occurrence deduplication yields a duplicate-free list. -/
theorem nodup_setDedup (l : List Nat) : (setDedup l).Nodup :=
  nodup_setDedupAux l []

/-- recalculateNewsStatus never touches the Vote collection. -/
theorem recalc_votes (db : DB) (nid : Nat) :
    ((recalculateNewsStatus db nid).2).votes = db.votes := by
  simp only [recalculateNewsStatus]
  cases h : findNews db nid
  · rfl
  · rfl

/-- Threading any list of recalculations through the store never touches
the Vote collection. -/
theorem runRecalcs_votes (nids : List Nat) : ∀ (db : DB),
    ((runRecalcs db nids).2).votes = db.votes := by
  induction nids with
  | nil => intro db; rfl
  | cons nid rest ih =>
    intro db
    simp only [runRecalcs]
    rw [ih, recalc_votes]

/-- A successful recalculation reports the news id it was asked for. -/
theorem recalc_ok_newsId (db : DB) (nid : Nat) (r : RecalcResult)
    (h : (recalculateNewsStatus db nid).1 = .ok r) : r.newsId = nid := by
  unfold recalculateNewsStatus at h
  split at h
  · simp at h
  · simp only [Except.ok.injEq] at h
    rw [← h]

/-- When no recalculation in a threaded run failed, the reported results
line up one-to-one, in order, with the requested news ids. -/
theorem runRecalcs_no_error_map (nids : List Nat) : ∀ (db : DB),
    ((runRecalcs db nids).1.findSome?
        (fun r => match r with | .error e => some e | .ok _ => none)) = none →
    (((runRecalcs db nids).1.filterMap (fun r => r.toOption)).map
        (fun r => r.newsId)) = nids := by
  induction nids with
  | nil =>
    intro db _
    rfl
  | cons nid rest ih =>
    intro db hok
    simp only [runRecalcs] at hok ⊢
    cases hstep : (recalculateNewsStatus db nid).1 with
    | error e =>
      rw [hstep] at hok
      simp [List.findSome?_cons] at hok
    | ok r =>
      rw [hstep] at hok
      simp only [List.findSome?_cons] at hok
      have ih' := ih _ hok
      simp only [Except.toOption] at ih'
      simp only [List.filterMap_cons, Except.toOption, List.map_cons]
      rw [recalc_ok_newsId db nid r hstep, ih']

/-- C7: batch deduplication: whenever BatchInvalidate succeeds, the
invalidation flag has been applied to exactly the matched votes, and the
reported per-news recalculation results cover each distinct newsId among
the matched votes exactly once (their id list is duplicate-free, and a
news id appears in it precisely when some matched vote references it) -
not once per vote. -/
theorem batch_dedup (db : DB) (voteIds : List Nat) (flag : Bool) (res : BatchOk) (db' : DB)
    (h : batchMarkVotesInvalid db voteIds flag = (.ok res, db')) :
    db'.votes = db.votes.map
        (fun v => if voteIds.contains v.id then { v with isInvalid := flag } else v)
    ∧ (res.statusUpdates.map (fun r => r.newsId)).Nodup
    ∧ (∀ nid : Nat, nid ∈ res.statusUpdates.map (fun r => r.newsId)
        ↔ ∃ v ∈ db.votes, voteIds.contains v.id = true ∧ v.newsId = nid) := by
  unfold batchMarkVotesInvalid at h
  by_cases hempty : (db.votes.filter (fun v => voteIds.contains v.id)).length = 0
  · rw [if_pos hempty] at h
    simp at h
  · rw [if_neg hempty] at h
    simp only [] at h
    split at h
    · simp at h
    · rename_i hfs
      simp only [Prod.mk.injEq, Except.ok.injEq] at h
      obtain ⟨hres, hdb⟩ := h
      subst hdb
      subst hres
      refine ⟨?_, ?_, ?_⟩
      · rw [runRecalcs_votes]
      · rw [runRecalcs_no_error_map _ _ hfs]
        exact nodup_setDedup _
      · intro nid
        rw [runRecalcs_no_error_map _ _ hfs, mem_setDedup]
        simp only [List.mem_map, List.mem_filter]
        constructor
        · rintro ⟨v, ⟨hv, hc⟩, hn⟩
          exact ⟨v, hv, hc, hn⟩
        · rintro ⟨v, hv, hc, hn⟩
          exact ⟨v, ⟨hv, hc⟩, hn⟩

/-- Witness for C7: invalidating three votes of which two
share news 1 and one references news 2 recalculates news ids 1 and 2 once
each; the flag reaches all three votes. -/
theorem batch_dedup_witness :
    ((DB.mk [Vote.mk 1 10 1 "Fake" true, Vote.mk 2 11 1 "Fake" true,
             Vote.mk 3 12 2 "Not Fake" true]
        [News.mk 1 "Pending" 0 0, News.mk 2 "Pending" 0 0]).votes
      = (DB.mk [Vote.mk 1 10 1 "Fake" false, Vote.mk 2 11 1 "Fake" false,
                Vote.mk 3 12 2 "Not Fake" false]
          [News.mk 1 "Pending" 0 0, News.mk 2 "Pending" 0 0]).votes.map
          (fun v => if [1, 2, 3].contains v.id then { v with isInvalid := true } else v))
    ∧ ((BatchOk.mk 3 [RecalcResult.mk 1 "Pending" (VoteStats.mk 0 0 0),
                      RecalcResult.mk 2 "Pending" (VoteStats.mk 0 0 0)]).statusUpdates.map
        (fun r => r.newsId)).Nodup
    ∧ (1 ∈ (BatchOk.mk 3 [RecalcResult.mk 1 "Pending" (VoteStats.mk 0 0 0),
                          RecalcResult.mk 2 "Pending" (VoteStats.mk 0 0 0)]).statusUpdates.map
            (fun r => r.newsId)
        ↔ ∃ v ∈ (DB.mk [Vote.mk 1 10 1 "Fake" false, Vote.mk 2 11 1 "Fake" false,
                        Vote.mk 3 12 2 "Not Fake" false]
            [News.mk 1 "Pending" 0 0, News.mk 2 "Pending" 0 0]).votes,
            [1, 2, 3].contains v.id = true ∧ v.newsId = 1) := by
  have H := batch_dedup
    (DB.mk [Vote.mk 1 10 1 "Fake" false, Vote.mk 2 11 1 "Fake" false,
            Vote.mk 3 12 2 "Not Fake" false]
       [News.mk 1 "Pending" 0 0, News.mk 2 "Pending" 0 0])
    [1, 2, 3] true
    (BatchOk.mk 3 [RecalcResult.mk 1 "Pending" (VoteStats.mk 0 0 0),
                   RecalcResult.mk 2 "Pending" (VoteStats.mk 0 0 0)])
    (DB.mk [Vote.mk 1 10 1 "Fake" true, Vote.mk 2 11 1 "Fake" true,
            Vote.mk 3 12 2 "Not Fake" true]
       [News.mk 1 "Pending" 0 0, News.mk 2 "Pending" 0 0])
    (by rfl)
  exact ⟨H.1, H.2.1, H.2.2 1⟩

/-- C6 evidence: a batch invalidation of two existing votes, one of which
references a news item that no longer exists, does not complete with a
per-item result list: the sibling recalculation of news 1 succeeds, the
recalculation of the missing news 2 rejects, the combined promise rejects,
and batchMarkVotesInvalid rethrows the wrapped error - even though the
invalidation flags have already been written to both votes. -/
theorem batch_abort_on_recalc_failure :
    ((batchMarkVotesInvalid
        (DB.mk [Vote.mk 1 10 1 "Fake" false, Vote.mk 2 11 2 "Fake" false]
           [News.mk 1 "Pending" 0 0]) [1, 2] true).1
      = .error
          "Failed to batch update vote status: Failed to recalculate news status: News not found")
    ∧ ((batchMarkVotesInvalid
        (DB.mk [Vote.mk 1 10 1 "Fake" false, Vote.mk 2 11 2 "Fake" false]
           [News.mk 1 "Pending" 0 0]) [1, 2] true).2).votes
      = [Vote.mk 1 10 1 "Fake" true, Vote.mk 2 11 2 "Fake" true] := by
  exact ⟨rfl, rfl⟩

/-- C10: division-by-zero guard on percentages: a NewsItem with zero total
votes gets fake-vote percentage 0 from getFakeVotePercentage rather than a
division by zero, and the public vote-stats route answers with the literal
string 0% for both percentage fields whenever totalCount = 0 - the
division sits only under the totalCount > 0 guard. -/
theorem zero_total_percentage_guard :
    (∀ n : News, getTotalVotes n = 0 → getFakeVotePercentage n = 0)
    ∧ (∀ (db : DB) (nid : Nat) (resp : StatsResponse),
        getNewsStatsRoute db nid = .ok resp → resp.totalCount = 0 →
        resp.fakePercentage = "0%" ∧ resp.notFakePercentage = "0%") := by
  constructor
  · intro n h0
    simp [getFakeVotePercentage, h0]
  · intro db nid resp h h0
    unfold getNewsStatsRoute at h
    split at h
    · simp at h
    · simp only [Except.ok.injEq] at h
      subst h
      have h0' : (getNewsVoteStats db nid).totalCount = 0 := h0
      have hng : ¬ ((getNewsVoteStats db nid).totalCount > 0) := by omega
      exact ⟨if_neg hng, if_neg hng⟩

/-- Witness for C10: a news document with zero cached votes has percentage
0, and the stats route on a vote-free store answers 0% for both fields. -/
theorem zero_total_percentage_guard_witness :
    getFakeVotePercentage (News.mk 1 "Pending" 0 0) = 0
    ∧ (StatsResponse.mk 1 0 0 0 "0%" "0%" "Pending").fakePercentage = "0%"
    ∧ (StatsResponse.mk 1 0 0 0 "0%" "0%" "Pending").notFakePercentage = "0%" := by
  have H2 := zero_total_percentage_guard.2
    (DB.mk [] [News.mk 1 "Pending" 0 0]) 1
    (StatsResponse.mk 1 0 0 0 "0%" "0%" "Pending") (by rfl) rfl
  exact ⟨zero_total_percentage_guard.1 (News.mk 1 "Pending" 0 0) rfl, H2.1, H2.2⟩
